import Mathlib

/-!
Verification of core behaviors of the conjunto Django package: password
generation (conjunto/tools.py), singleton and settings models
(conjunto/models.py), the audit-log context (conjunto/audit_log/context.py),
the audit-log action registry (conjunto/audit_log/registry.py,
conjunto/registry.py), and the HTMX message middleware
(conjunto/middleware.py).

Python dictionaries are modelled as maps into Option, Python None as
Option.none, database tables as lists of rows, and the randomness of
secrets.choice as an oracle giving an index for every position.
-/

namespace Conjunto

/-! ## conjunto/tools.py : generate_password -/

/-- Characters of Python string.ascii_letters. -/
def ascii_letters : List Char :=
  ("abcdefghijklmnopqrstuvwxyzABCDEFGHIJKLMNOPQRSTUVWXYZ").data

/-- Characters of Python string.digits. -/
def ascii_digits : List Char := ("0123456789").data

/-- Characters of Python string.punctuation. -/
def ascii_punctuation : List Char :=
  ("!\"#$%&\x27()*+,-./:;<=>?@[\\]^_\x60\x7b|\x7d~").data

/-- The human-usable punctuation literal from tools.py line 176. -/
def human_punctuation : List Char := ("!#$%&()*+-./=?@").data

/-- Python str.replace(old, new) with a one-character pattern and empty
replacement: drop every occurrence of the character. -/
def removeChar (s : List Char) (c : Char) : List Char :=
  s.filter (fun x => x ≠ c)

/-- The character pool generate_password draws from, built exactly as in
tools.py lines 170-192: letters and digits, plus punctuation depending on
the flags; for human-usable passwords the confusable characters are removed;
the backslash is always removed at the end. -/
def passwordCharacters (human_usable with_punctuation : Bool) : List Char :=
  let characters := ascii_letters ++ ascii_digits
  let characters :=
    if human_usable then
      let characters :=
        if with_punctuation then characters ++ human_punctuation else characters
      let characters := removeChar characters 'O'
      let characters := removeChar characters 'o'
      let characters := removeChar characters '0'
      let characters := removeChar characters 'l'
      let characters := removeChar characters 'i'
      removeChar characters '1'
    else
      if with_punctuation then characters ++ ascii_punctuation else characters
  removeChar characters '\\'

/-- Python secrets.choice on a sequence, with the random draw given by the
index k reduced modulo the length (choice on an empty sequence raises; the
pool below is never empty, so the space fallback is never taken). -/
def pyChoice (l : List Char) (k : Nat) : Char :=
  match l with
  | [] => ' '
  | a :: as => (a :: as).get ⟨k % (a :: as).length, Nat.mod_lt _ (Nat.succ_pos _)⟩

/-- generate_password (tools.py lines 166-193). The Django setting
PASSWORD_MIN_LENGTH is passed as an optional value, getattr-defaulting to 8;
the per-position random draws of secrets.choice are given by the oracle
pick. Raising ValueError is modelled by Except.error. -/
def generate_password (length : Int) (human_usable with_punctuation : Bool)
    (password_min_length : Option Int) (pick : Nat → Nat) :
    Except String (List Char) :=
  let min_length := password_min_length.getD 8
  if length < min_length then
    .error ("password must have positive length")
  else
    let characters := passwordCharacters human_usable with_punctuation
    .ok ((List.range length.toNat).map (fun i => pyChoice characters (pick i)))

/-! ## conjunto/models.py : SingletonModel -/

/-- A stored database row of a singleton model: primary key and payload. -/
structure Row where
  pk : Nat
  val : Nat
deriving DecidableEq

/-- An in-memory model instance: a possibly unset primary key and payload. -/
structure MInstance where
  pk : Option Nat
  val : Nat
deriving DecidableEq

/-- Outcome of Django QuerySet.get() with no filter. -/
inductive GetError where
  | doesNotExist
  | multipleObjectsReturned
deriving DecidableEq

/-- Django Model.objects.get(): the unique row, or DoesNotExist, or
MultipleObjectsReturned. -/
def objects_get (db : List Row) : Except GetError Row :=
  match db with
  | [] => .error .doesNotExist
  | [r] => .ok r
  | _ => .error .multipleObjectsReturned

/-- Result of SingletonModel.get_instance: the stored row, or a fresh unsaved
default instance. -/
inductive GetInstanceResult where
  | stored (r : Row)
  | fresh
deriving DecidableEq

/-- SingletonModel.get_instance (models.py lines 37-55): the stored object if
there is one, a new empty instance if none, and IntegrityError when more than
one object is saved. -/
def get_instance (db : List Row) : Except String GetInstanceResult :=
  match objects_get db with
  | .ok r => .ok (.stored r)
  | .error .doesNotExist => .ok .fresh
  | .error .multipleObjectsReturned =>
      .error ("IntegrityError: more than one instance saved in the database")

/-- Primary key of the object get_instance returned: a stored row keeps its
pk, a fresh default instance has none. -/
def GetInstanceResult.pkOf : GetInstanceResult → Option Nat
  | .stored r => some r.pk
  | .fresh => none

/-- Python falsiness of an optional integer primary key: None and 0 are
falsy, every other value truthy. -/
def optNatFalsy : Option Nat → Bool
  | none => true
  | some n => n == 0

/-- A fresh AutoField primary key: one more than the largest pk in use. -/
def next_pk (db : List Row) : Nat :=
  db.foldr (fun r m => max r.pk m) 0 + 1

/-- Django Model.save() on the base class: UPDATE the row carrying the
instance's pk when such a row exists, otherwise INSERT (with a fresh pk when
the instance has none). -/
def django_save (inst : MInstance) (db : List Row) : List Row :=
  match inst.pk with
  | none => db ++ [⟨next_pk db, inst.val⟩]
  | some k =>
      if db.any (fun r => r.pk == k) then
        db.map (fun r => if r.pk == k then ⟨k, inst.val⟩ else r)
      else db ++ [⟨k, inst.val⟩]

/-- SingletonModel.save (models.py lines 22-35): when the instance has no
(truthy) pk, adopt the pk of the object returned by get_instance(), then do
the ordinary Django save. -/
def singleton_save (inst : MInstance) (db : List Row) :
    Except String (List Row) :=
  if optNatFalsy inst.pk then
    match get_instance db with
    | .error e => .error e
    | .ok g => .ok (django_save { inst with pk := g.pkOf } db)
  else
    .ok (django_save inst db)

/-- One observable SingletonModel.save step on the database table: either a
fresh instance (without a pk) is saved, or an instance holding the pk of a
currently stored row is re-saved. -/
inductive SingletonStep : List Row → List Row → Prop where
  | freshSave (v : Nat) (db db2 : List Row)
      (h : singleton_save ⟨none, v⟩ db = .ok db2) : SingletonStep db db2
  | existingSave (k v : Nat) (db db2 : List Row)
      (hk : k ∈ db.map Row.pk) (hkz : k ≠ 0)
      (h : singleton_save ⟨some k, v⟩ db = .ok db2) : SingletonStep db db2

/-! ## conjunto/models.py : AbstractSettings -/

/-- A stored settings row: id, optional site id, and payload. -/
structure SettingsRow where
  id : Nat
  site : Option Nat
  val : Nat
deriving DecidableEq

/-- An in-memory settings instance. -/
structure SettingsInstance where
  id : Option Nat
  site : Option Nat
  val : Nat
deriving DecidableEq

/-- A fresh id for a settings row. -/
def settings_next_id (db : List SettingsRow) : Nat :=
  db.foldr (fun r m => max r.id m) 0 + 1

/-- Django Model.save() for a settings instance: UPDATE when a row with the
instance's id exists, otherwise INSERT. -/
def settings_django_save (inst : SettingsInstance) (db : List SettingsRow) :
    List SettingsRow :=
  match inst.id with
  | none => db ++ [⟨settings_next_id db, inst.site, inst.val⟩]
  | some k =>
      if db.any (fun r => r.id == k) then
        db.map (fun r => if r.id == k then ⟨k, inst.site, inst.val⟩ else r)
      else db ++ [⟨k, inst.site, inst.val⟩]

/-- AbstractSettings.save (models.py lines 107-120): when the instance is a
global settings object (site is None), look at all stored global settings
rows, excluding the instance's own row when it has a (truthy) id; if any
remain, raise ValueError before touching the database, else save normally. -/
def abstract_settings_save (inst : SettingsInstance) (db : List SettingsRow) :
    Except String (List SettingsRow) :=
  if inst.site = none then
    let qs := db.filter (fun r => r.site == none)
    let qs := if optNatFalsy inst.id then qs
              else qs.filter (fun r => some r.id != inst.id)
    if qs.isEmpty then .ok (settings_django_save inst db)
    else .error ("Cannot save another settings model without a site.")
  else
    .ok (settings_django_save inst db)

/-! ## conjunto/audit_log/context.py -/

/-- An audit-log LogContext object: an object-identity tag plus the user and
uuid it carries (LogContext.__init__, context.py lines 14-16; when
generate_uuid is false the uuid attribute is None). -/
structure LogContext where
  oid : Nat
  user : Option Nat
  uuid : Option Nat
deriving DecidableEq

/-- The module-level empty_log_context (context.py line 30): built with
generate_uuid=False, so its user and uuid are both None. -/
def empty_log_context : LogContext := ⟨0, none, none⟩

/-- The asgiref Local slot _active: either its value attribute is set to a
context, or the attribute is unset. -/
abbrev ActiveSlot := Option LogContext

/-- activate (context.py lines 33-34). -/
def activate (c : LogContext) (_s : ActiveSlot) : ActiveSlot := some c

/-- deactivate (context.py lines 37-38): removes the value attribute. -/
def deactivate (_s : ActiveSlot) : ActiveSlot := none

/-- get_active_log_context (context.py lines 41-42):
getattr(_active, "value", empty_log_context). -/
def get_active_log_context (s : ActiveSlot) : LogContext :=
  s.getD empty_log_context

/-- LogContext.__enter__ (context.py lines 18-21): save the previous value of
the slot (None when unset) and activate self; returns the saved old context
together with the new slot state. -/
def logcontext_enter (c : LogContext) (s : ActiveSlot) :
    Option LogContext × ActiveSlot :=
  (s, activate c s)

/-- LogContext.__exit__ (context.py lines 23-27): reactivate the saved old
context when one was saved (LogContext objects are always truthy), else
deactivate the slot. -/
def logcontext_exit (old : Option LogContext) (s : ActiveSlot) : ActiveSlot :=
  match old with
  | some d => activate d s
  | none => deactivate s

/-! ## conjunto/registry.py : ObjectTypeRegistry -/

/-- A Python class as seen by the registry: its identity and its method
resolution order, cls.mro(), whose first element is the class itself. -/
structure PyClass where
  cid : Nat
  mro : List Nat
deriving DecidableEq

/-- ObjectTypeRegistry (registry.py lines 13-42): the two dicts
values_by_exact_class and values_by_class, modelled as maps from class id to
the registered log-entry-model id. -/
structure ObjectTypeRegistry where
  values_by_exact_class : Nat → Option Nat
  values_by_class : Nat → Option Nat

/-- ObjectTypeRegistry.register (registry.py lines 27-31). -/
def ObjectTypeRegistry.register (r : ObjectTypeRegistry) (cls : Nat)
    (value : Nat) (exact_class : Bool) : ObjectTypeRegistry :=
  if exact_class then
    { r with values_by_exact_class :=
        fun c => if c = cls then some value else r.values_by_exact_class c }
  else
    { r with values_by_class :=
        fun c => if c = cls then some value else r.values_by_class c }

/-- ObjectTypeRegistry.get_by_type (registry.py lines 33-42): the
exact-class dict first; on a KeyError, the first class of cls.mro() present
in values_by_class; else None. -/
def ObjectTypeRegistry.get_by_type (r : ObjectTypeRegistry) (cls : PyClass) :
    Option Nat :=
  match r.values_by_exact_class cls.cid with
  | some v => some v
  | none => cls.mro.findSome? (fun a => r.values_by_class a)

/-! ## conjunto/audit_log/registry.py : LogActionRegistry -/

/-- A LogFormatter object as produced by register_action: its label and
message attributes. -/
structure LogFormatterObj where
  label : String
  message : String
deriving DecidableEq

/-- The state of a LogActionRegistry (registry.py lines 22-36), together
with a ghost counter hook_runs recording how many times the list of
register_log_actions hook functions has been executed. -/
structure LogActionRegistry where
  has_scanned_for_actions : Bool
  hook_runs : Nat
  formatters : String → Option LogFormatterObj
  choices : List (String × String)
  log_entry_models_by_type : ObjectTypeRegistry
  log_entry_models : List Nat

/-- A freshly constructed LogActionRegistry (registry.py __init__). -/
def initial_registry : LogActionRegistry where
  has_scanned_for_actions := false
  hook_runs := 0
  formatters := fun _ => none
  choices := []
  log_entry_models_by_type := ⟨fun _ => none, fun _ => none⟩
  log_entry_models := []

/-- The inner register_formatter_class closure of register_action
(registry.py lines 52-55): instantiate the formatter class, store it in
formatters under the action, and append (action, label) to choices. -/
def register_formatter_class (action : String) (fmt : LogFormatterObj)
    (s : LogActionRegistry) : LogActionRegistry :=
  { s with
    formatters := fun a => if a = action then some fmt else s.formatters a
    choices := s.choices ++ [(action, fmt.label)] }

/-- LogActionRegistry.register_model (registry.py lines 45-47): register the
class (non-exact) in the type registry and add the log entry model to the
set of models. -/
def register_model (cls : Nat) (log_entry_model : Nat)
    (s : LogActionRegistry) : LogActionRegistry :=
  { s with
    log_entry_models_by_type :=
      s.log_entry_models_by_type.register cls log_entry_model false
    log_entry_models :=
      if log_entry_model ∈ s.log_entry_models then s.log_entry_models
      else log_entry_model :: s.log_entry_models }

/-- Python truthiness of an optional string: None and the empty string are
falsy. -/
def strTruthy : Option String → Bool
  | none => false
  | some s => !s.isEmpty

/-- What register_action returns when it does not raise: None after an
immediate registration, or the register_formatter_class decorator (the state
is unchanged in the decorator case). -/
inductive RegisterActionResult where
  | returnsNone (s : LogActionRegistry)
  | returnsDecorator (s : LogActionRegistry)

/-- LogActionRegistry.register_action (registry.py lines 49-69): when label
or message is truthy, both must be, else ValueError; with both, build a
LogFormatter subclass carrying them and register it, returning None; with
neither, return the register_formatter_class decorator. -/
def register_action (action : String) (label message : Option String)
    (s : LogActionRegistry) : Except String RegisterActionResult :=
  if strTruthy label || strTruthy message then
    if !strTruthy label || !strTruthy message then
      .error ("Both label and message must be provided")
    else
      .ok (.returnsNone (register_formatter_class action
        ⟨label.getD (""), message.getD ("")⟩ s))
  else
    .ok (.returnsDecorator s)

/-- One statement inside the body of a register_log_actions hook function:
hooks populate the registry via register_action (with truthy label and
message) and register_model. -/
inductive HookCmd where
  | registerAction (action label message : String)
  | registerModel (cls : Nat) (log_entry_model : Nat)

/-- Run one hook statement against the registry. -/
def run_hook (s : LogActionRegistry) : HookCmd → LogActionRegistry
  | .registerAction action label message =>
      register_formatter_class action ⟨label, message⟩ s
  | .registerModel cls m => register_model cls m s

/-- A register_log_actions hook function is a list of hook statements; the
gdaps hook list is a list of hook functions. -/
abbrev Hook := List HookCmd

/-- LogActionRegistry.scan_for_actions (registry.py lines 38-43): when the
registry has not been scanned yet, run every register_log_actions hook
function on it and mark it scanned (the ghost counter hook_runs records the
execution of the hook list). -/
def scan_for_actions (hooks : List Hook) (s : LogActionRegistry) :
    LogActionRegistry :=
  if s.has_scanned_for_actions then s
  else
    let s1 := hooks.foldl (fun t fn => fn.foldl run_hook t) s
    { s1 with has_scanned_for_actions := true, hook_runs := s1.hook_runs + 1 }

/-- LogActionRegistry.get_choices (registry.py lines 71-74). -/
def get_choices (hooks : List Hook) (s : LogActionRegistry) :
    LogActionRegistry × List (String × String) :=
  let s1 := scan_for_actions hooks s
  (s1, s1.choices)

/-- LogActionRegistry.get_formatter (registry.py lines 76-79), keyed by the
log entry's action. -/
def get_formatter (hooks : List Hook) (s : LogActionRegistry)
    (action : String) : LogActionRegistry × Option LogFormatterObj :=
  let s1 := scan_for_actions hooks s
  (s1, s1.formatters action)

/-- LogActionRegistry.action_exists (registry.py lines 81-84). -/
def action_exists (hooks : List Hook) (s : LogActionRegistry)
    (action : String) : LogActionRegistry × Bool :=
  let s1 := scan_for_actions hooks s
  (s1, (s1.formatters action).isSome)

/-- LogActionRegistry.__contains__ (registry.py lines 86-96): delegates to
action_exists. -/
def registry_contains (hooks : List Hook) (s : LogActionRegistry)
    (item : String) : LogActionRegistry × Bool :=
  action_exists hooks s item

/-- LogActionRegistry.get_log_entry_models (registry.py lines 98-101). -/
def get_log_entry_models (hooks : List Hook) (s : LogActionRegistry) :
    LogActionRegistry × List Nat :=
  let s1 := scan_for_actions hooks s
  (s1, s1.log_entry_models)

/-- LogActionRegistry.get_action_label (registry.py lines 103-105): a bare
dict lookup (a missing action would raise KeyError); note it does not call
scan_for_actions. -/
def get_action_label (s : LogActionRegistry) (action : String) :
    LogActionRegistry × Option String :=
  (s, (s.formatters action).map LogFormatterObj.label)

/-- LogActionRegistry.get_log_model_for_model (registry.py lines 107-118):
scan, then resolve through the type registry. -/
def get_log_model_for_model (hooks : List Hook) (s : LogActionRegistry)
    (cls : PyClass) : LogActionRegistry × Option Nat :=
  let s1 := scan_for_actions hooks s
  (s1, s1.log_entry_models_by_type.get_by_type cls)

/-- A created log entry row (the result of log_entry_model.objects.log_action
in registry.py lines 162-164). -/
structure LogEntry where
  model : Nat
  action : String
  user : Option Nat
  uuid : Option Nat
deriving DecidableEq

/-- Python x or y for optional objects: None is falsy, any present model
instance or UUID object is truthy. -/
def pyOrOpt (x y : Option α) : Option α :=
  match x with
  | some v => some v
  | none => y

/-- LogActionRegistry.log (registry.py lines 132-164): scan, resolve the log
entry model for the instance's class (None means a warning and no entry),
default user and uuid from the active log context, and create the entry. -/
def registry_log (hooks : List Hook) (s : LogActionRegistry) (cls : PyClass)
    (action : String) (user uuid : Option Nat) (active : ActiveSlot) :
    LogActionRegistry × Option LogEntry :=
  let s1 := scan_for_actions hooks s
  let p := get_log_model_for_model hooks s1 cls
  (p.1,
    match p.2 with
    | none => none
    | some m =>
        some ⟨m, action, pyOrOpt user (get_active_log_context active).user,
          pyOrOpt uuid (get_active_log_context active).uuid⟩)

/-- The public lookup operations of LogActionRegistry named by the spec. -/
inductive RegistryOp where
  | opGetChoices
  | opGetFormatter (action : String)
  | opActionExists (action : String)
  | opContains (item : String)
  | opGetLogEntryModels
  | opGetLogModelForModel (cls : PyClass)
  | opGetActionLabel (action : String)
  | opLog (cls : PyClass) (action : String) (user uuid : Option Nat)

/-- The registry state after one public lookup operation. -/
def RegistryOp.step (hooks : List Hook) (active : ActiveSlot)
    (s : LogActionRegistry) : RegistryOp → LogActionRegistry
  | .opGetChoices => (get_choices hooks s).1
  | .opGetFormatter a => (get_formatter hooks s a).1
  | .opActionExists a => (action_exists hooks s a).1
  | .opContains a => (registry_contains hooks s a).1
  | .opGetLogEntryModels => (get_log_entry_models hooks s).1
  | .opGetLogModelForModel c => (get_log_model_for_model hooks s c).1
  | .opGetActionLabel a => (get_action_label s a).1
  | .opLog c a u uu => (registry_log hooks s c a u uu active).1

/-- Run a sequence of public lookup operations. -/
def run_ops (hooks : List Hook) (active : ActiveSlot) (s : LogActionRegistry)
    (ops : List RegistryOp) : LogActionRegistry :=
  ops.foldl (RegistryOp.step hooks active) s

/-- Does the operation trigger scan_for_actions in the source? Every public
lookup does, except get_action_label. -/
def RegistryOp.triggersScan : RegistryOp → Bool
  | .opGetActionLabel _ => false
  | _ => true

/-! ## conjunto/middleware.py : HtmxMessageMiddleware -/

/-- A pending Django message as serialized by the middleware
(middleware.py lines 77-84). -/
structure HtmxMessage where
  message : String
  tags : String
  extra_tags : Option String
deriving DecidableEq

/-- A JSON value inside an HX-Trigger object: a boolean, the serialized
messages array, or any other view-chosen value. -/
inductive JVal where
  | jbool (b : Bool)
  | jmessages (ms : List HtmxMessage)
  | jother (n : Nat)
deriving DecidableEq

/-- The HX-Trigger header a view may have set: either the plain string
syntax (a value not starting with a brace) or the JSON object syntax. -/
inductive HxTriggerValue where
  | strForm (s : String)
  | objForm (o : List (String × JVal))
deriving DecidableEq

/-- An HTTP response as the middleware sees it: status code, the HX-Redirect
and HX-Trigger headers, and the untouched remaining headers and body. -/
structure HttpResponse where
  status_code : Nat
  hx_redirect : Option String
  hx_trigger : Option HxTriggerValue
  other_headers : List (String × String)
  body : String
deriving DecidableEq

/-- Python dict assignment on a JSON object: replace the value under an
existing key, else append the pair. -/
def setKey (o : List (String × JVal)) (k : String) (v : JVal) :
    List (String × JVal) :=
  if o.any (fun p => p.1 == k) then
    o.map (fun p => if p.1 == k then (k, v) else p)
  else o ++ [(k, v)]

/-- HtmxMessageMiddleware.__call__ (middleware.py lines 55-116), applied to
the response of the wrapped view: pass non-HTMX requests, 3xx responses and
responses with an HX-Redirect header through untouched; on a 204 response
with pending messages, merge a messages key into the HX-Trigger object. -/
def htmx_message_middleware (htmx : Bool) (pending : List HtmxMessage)
    (r : HttpResponse) : HttpResponse :=
  if !htmx then r
  else if 300 ≤ r.status_code ∧ r.status_code < 400 then r
  else if r.hx_redirect.isSome then r
  else
    let messages := if r.status_code = 204 then pending else []
    if messages.isEmpty then r
    else
      let hx_trigger : List (String × JVal) :=
        match r.hx_trigger with
        | none => []
        | some (.objForm o) => o
        | some (.strForm s) => [(s, .jbool true)]
      let merged := setKey hx_trigger ("messages") (.jmessages messages)
      { r with hx_trigger := some (.objForm merged) }

/-! ## Theorems -/

/-- C4: for every SingletonModel subclass, get_instance() returns the stored
instance when exactly one row exists in the database, returns a new unsaved
default instance when no row exists, and raises IntegrityError when more
than one row exists. -/
theorem get_instance_spec (db : List Row) :
    (∀ r, db = [r] → get_instance db = .ok (.stored r)) ∧
    (db = [] → get_instance db = .ok .fresh) ∧
    (2 ≤ db.length → ∃ msg, get_instance db = .error msg) := by
  refine ⟨?_, ?_, ?_⟩
  · rintro r rfl; rfl
  · rintro rfl; rfl
  · intro h
    match db, h with
    | r1 :: r2 :: rest, _ => exact ⟨_, rfl⟩

/-- Witness for C4 at a one-row, a zero-row and a two-row database. -/
theorem get_instance_spec_witness :
    get_instance [⟨1, 5⟩] = .ok (.stored ⟨1, 5⟩) ∧
    get_instance [] = .ok .fresh ∧
    ∃ msg, get_instance [⟨1, 5⟩, ⟨2, 6⟩] = .error msg :=
  ⟨(get_instance_spec [⟨1, 5⟩]).1 ⟨1, 5⟩ rfl,
   (get_instance_spec []).2.1 rfl,
   (get_instance_spec [⟨1, 5⟩, ⟨2, 6⟩]).2.2 (by decide)⟩

/-- C5: entering a LogContext activates it; exiting restores the slot to its
previous state, so get_active_log_context afterwards returns exactly the
context that was active before entry, or the empty context when none was
active before entry. -/
theorem logcontext_roundtrip (c : LogContext) (s : ActiveSlot) :
    get_active_log_context (logcontext_enter c s).2 = c ∧
    logcontext_exit (logcontext_enter c s).1 (logcontext_enter c s).2 = s ∧
    (s = none →
      get_active_log_context
        (logcontext_exit (logcontext_enter c s).1 (logcontext_enter c s).2) =
        empty_log_context) ∧
    (∀ d, s = some d →
      get_active_log_context
        (logcontext_exit (logcontext_enter c s).1 (logcontext_enter c s).2) =
        d) := by
  refine ⟨rfl, ?_, ?_, ?_⟩
  · cases s <;> rfl
  · rintro rfl; rfl
  · rintro d rfl; rfl

/-- Witness for C5 at a concrete context, both over an empty slot and over a
slot holding another active context. -/
theorem logcontext_roundtrip_witness :
    get_active_log_context
      (logcontext_enter ⟨1, some 7, some 9⟩ (some ⟨2, none, some 3⟩)).2 =
      ⟨1, some 7, some 9⟩ ∧
    get_active_log_context
      (logcontext_exit
        (logcontext_enter ⟨1, some 7, some 9⟩ (some ⟨2, none, some 3⟩)).1
        (logcontext_enter ⟨1, some 7, some 9⟩ (some ⟨2, none, some 3⟩)).2) =
      ⟨2, none, some 3⟩ ∧
    get_active_log_context
      (logcontext_exit (logcontext_enter ⟨1, some 7, some 9⟩ none).1
        (logcontext_enter ⟨1, some 7, some 9⟩ none).2) =
      empty_log_context :=
  ⟨(logcontext_roundtrip ⟨1, some 7, some 9⟩ (some ⟨2, none, some 3⟩)).1,
   (logcontext_roundtrip ⟨1, some 7, some 9⟩ (some ⟨2, none, some 3⟩)).2.2.2
     ⟨2, none, some 3⟩ rfl,
   (logcontext_roundtrip ⟨1, some 7, some 9⟩ none).2.2.1 rfl⟩

/-- C9: AbstractSettings.save raises ValueError, before touching the
database, whenever the instance is a global settings object (site None) and
a different global settings row already exists; re-saving the same global
row (its own id being excluded from the check) succeeds. -/
theorem abstract_settings_save_spec (inst : SettingsInstance)
    (db : List SettingsRow) :
    (inst.site = none → (∃ r ∈ db, r.site = none ∧ some r.id ≠ inst.id) →
      ∃ msg, abstract_settings_save inst db = .error msg) ∧
    (∀ k, inst.site = none → inst.id = some k → k ≠ 0 →
      (∀ r ∈ db, r.site = none → r.id = k) →
      ∃ db2, abstract_settings_save inst db = .ok db2) := by
  constructor
  · rintro hsite ⟨r, hr, hrsite, hrid⟩
    have hrq : r ∈ db.filter (fun r => r.site == none) :=
      List.mem_filter.mpr ⟨hr, by simp [hrsite]⟩
    unfold abstract_settings_save
    rw [if_pos hsite]
    by_cases hid : optNatFalsy inst.id = true
    · have hne : (db.filter (fun r => r.site == none)).isEmpty = false := by
        simp only [List.isEmpty_eq_false_iff_exists_mem]
        exact ⟨r, hrq⟩
      simp only [hid, if_true, hne, Bool.false_eq_true, if_false]
      exact ⟨_, rfl⟩
    · have hrq2 : r ∈ (db.filter (fun r => r.site == none)).filter
          (fun r => some r.id != inst.id) :=
        List.mem_filter.mpr ⟨hrq, by simp [bne_iff_ne, hrid]⟩
      have hne : ((db.filter (fun r => r.site == none)).filter
          (fun r => some r.id != inst.id)).isEmpty = false := by
        simp only [List.isEmpty_eq_false_iff_exists_mem]
        exact ⟨r, hrq2⟩
      rw [Bool.not_eq_true] at hid
      simp only [hid, Bool.false_eq_true, if_false, hne]
      exact ⟨_, rfl⟩
  · rintro k hsite hid hkz hall
    unfold abstract_settings_save
    rw [if_pos hsite]
    have hfalsy : optNatFalsy inst.id = false := by
      rw [hid]; simp [optNatFalsy, hkz]
    have hempty : ((db.filter (fun r => r.site == none)).filter
        (fun r => some r.id != inst.id)).isEmpty = true := by
      rw [List.isEmpty_iff, List.filter_eq_nil_iff]
      intro a ha
      obtain ⟨hadb, hasite⟩ := List.mem_filter.mp ha
      have hsome : a.site = none := by simpa using hasite
      have hak : a.id = k := hall a hadb hsome
      simp [hak, hid]
    simp only [hfalsy, Bool.false_eq_true, if_false, hempty, if_true]
    exact ⟨_, rfl⟩

/-- Witness for C9: a second fresh global settings instance is rejected when
a global row exists, and re-saving that row itself succeeds. -/
theorem abstract_settings_save_spec_witness :
    (∃ msg,
      abstract_settings_save ⟨none, none, 9⟩ [⟨4, none, 5⟩] = .error msg) ∧
    (∃ db2,
      abstract_settings_save ⟨some 4, none, 9⟩ [⟨4, none, 5⟩] = .ok db2) :=
  ⟨(abstract_settings_save_spec ⟨none, none, 9⟩ [⟨4, none, 5⟩]).1 rfl
      ⟨⟨4, none, 5⟩, by simp, rfl, by simp⟩,
   (abstract_settings_save_spec ⟨some 4, none, 9⟩ [⟨4, none, 5⟩]).2 4 rfl rfl
      (by decide) (by decide)⟩

/-- Helper: a Django save that updates an existing row keeps the row count. -/
theorem django_save_update_length (inst : MInstance) (db : List Row) (k : Nat)
    (hpk : inst.pk = some k) (hk : k ∈ db.map Row.pk) :
    (django_save inst db).length = db.length := by
  obtain ⟨r, hr, hrk⟩ := List.mem_map.mp hk
  have hany : db.any (fun r => r.pk == k) = true :=
    List.any_eq_true.mpr ⟨r, hr, by simp [hrk]⟩
  unfold django_save
  rw [hpk]
  simp only [hany, if_true, List.length_map]

/-- Helper: each SingletonModel.save step keeps the table at no more than
one row. -/
theorem singletonStep_length (db db2 : List Row) (h : SingletonStep db db2)
    (hlen : db.length ≤ 1) : db2.length ≤ 1 := by
  cases h with
  | freshSave v db db2 hsave =>
    cases db with
    | nil =>
      have hcomp : singleton_save ⟨none, v⟩ ([] : List Row) = .ok [⟨1, v⟩] :=
        rfl
      rw [hcomp] at hsave
      injection hsave with h2
      rw [← h2]
      simp
    | cons r rest =>
      cases rest with
      | nil =>
        have hcomp : singleton_save ⟨none, v⟩ [r] = .ok [⟨r.pk, v⟩] := by
          simp [singleton_save, optNatFalsy, get_instance, objects_get,
            GetInstanceResult.pkOf, django_save]
        rw [hcomp] at hsave
        injection hsave with h2
        rw [← h2]
        simp
      | cons r2 rest2 =>
        simp only [List.length_cons] at hlen
        omega
  | existingSave k v db db2 hk hkz hsave =>
    have hfalsy : optNatFalsy (some k) = false := by simp [optNatFalsy, hkz]
    simp only [singleton_save, hfalsy, Bool.false_eq_true, if_false,
      Except.ok.injEq] at hsave
    rw [← hsave]
    rw [django_save_update_length ⟨some k, v⟩ db k rfl hk]
    exact hlen

/-- C8: SingletonModel.save on an instance without a primary key first
adopts the pk of the object returned by get_instance(), so a second fresh
instance overwrites the stored row instead of inserting a new one, and any
sequence of save steps keeps the table at no more than one row. -/
theorem singleton_save_spec :
    (∀ (inst : MInstance) (db : List Row) (g : GetInstanceResult),
      optNatFalsy inst.pk = true → get_instance db = .ok g →
      singleton_save inst db = .ok (django_save { inst with pk := g.pkOf } db)) ∧
    (∀ (v : Nat) (r : Row), singleton_save ⟨none, v⟩ [r] = .ok [⟨r.pk, v⟩]) ∧
    (∀ (db db2 : List Row), db.length ≤ 1 →
      Relation.ReflTransGen SingletonStep db db2 → db2.length ≤ 1) := by
  refine ⟨?_, ?_, ?_⟩
  · intro inst db g hfalsy hget
    unfold singleton_save
    rw [hfalsy]
    simp only [if_true, hget]
  · intro v r
    simp [singleton_save, optNatFalsy, get_instance, objects_get,
      GetInstanceResult.pkOf, django_save]
  · intro db db2 hlen hchain
    induction hchain with
    | refl => exact hlen
    | tail hab hbc ih => exact singletonStep_length _ _ hbc ih

/-- Witness for C8: a fresh save over a one-row table overwrites the row,
and a concrete two-step chain of fresh saves from the empty table ends with
a single row. -/
theorem singleton_save_spec_witness :
    singleton_save ⟨none, 7⟩ [⟨3, 5⟩] = .ok [⟨3, 7⟩] ∧
    ([⟨1, 7⟩] : List Row).length ≤ 1 :=
  ⟨singleton_save_spec.2.1 7 ⟨3, 5⟩,
   singleton_save_spec.2.2 [] [⟨1, 7⟩] (by decide)
     (Relation.ReflTransGen.tail
       (Relation.ReflTransGen.single (.freshSave 5 [] [⟨1, 5⟩] rfl))
       (.freshSave 7 [⟨1, 5⟩] [⟨1, 7⟩] rfl))⟩

/-- Helper: a choice from a nonempty pool is an element of the pool. -/
theorem pyChoice_mem (l : List Char) (hl : l ≠ []) (k : Nat) :
    pyChoice l k ∈ l := by
  match l with
  | [] => exact absurd rfl hl
  | a :: as => exact List.get_mem _ _ _

/-- Helper: the backslash is removed from every character pool. -/
theorem backslash_not_mem_pool :
    ∀ hu wp : Bool, '\\' ∉ passwordCharacters hu wp := by decide

/-- Helper: the human-usable pools contain no confusable characters. -/
theorem confusables_not_mem_pool : ∀ wp : Bool,
    ∀ c ∈ passwordCharacters true wp,
    c ∉ ['O', 'o', '0', 'l', 'i', '1'] := by decide

/-- Helper: no character pool is empty. -/
theorem pool_ne_nil : ∀ hu wp : Bool, passwordCharacters hu wp ≠ [] := by
  decide

/-- C10: generate_password raises ValueError when the requested length is
below PASSWORD_MIN_LENGTH (getattr default 8); otherwise it returns exactly
length characters, never containing a backslash, and for human-usable
passwords never containing the confusable characters O, o, 0, l, i, 1. -/
theorem generate_password_spec (length : Int) (hu wp : Bool)
    (pml : Option Int) (pick : Nat → Nat) :
    (length < pml.getD 8 →
      generate_password length hu wp pml pick =
        .error ("password must have positive length")) ∧
    (pml.getD 8 ≤ length → ∃ pw,
      generate_password length hu wp pml pick = .ok pw ∧
      pw.length = length.toNat ∧
      (∀ c ∈ pw, c ≠ '\\') ∧
      (hu = true → ∀ c ∈ pw, c ∉ ['O', 'o', '0', 'l', 'i', '1'])) := by
  constructor
  · intro h
    simp only [generate_password]
    rw [if_pos h]
  · intro h
    have hnl : ¬(length < pml.getD 8) := not_lt.mpr h
    refine ⟨(List.range length.toNat).map
        (fun i => pyChoice (passwordCharacters hu wp) (pick i)),
      ?_, ?_, ?_, ?_⟩
    · simp only [generate_password]
      rw [if_neg hnl]
    · simp
    · intro c hc
      obtain ⟨i, _, hpc⟩ := List.mem_map.mp hc
      have hmem := pyChoice_mem (passwordCharacters hu wp)
        (pool_ne_nil hu wp) (pick i)
      rw [hpc] at hmem
      intro heq
      rw [heq] at hmem
      exact backslash_not_mem_pool hu wp hmem
    · intro hhu c hc
      subst hhu
      obtain ⟨i, _, hpc⟩ := List.mem_map.mp hc
      have hmem := pyChoice_mem (passwordCharacters true wp)
        (pool_ne_nil true wp) (pick i)
      rw [hpc] at hmem
      exact confusables_not_mem_pool wp c hmem

/-- Witness for C10: a length-3 request is rejected, and a length-12
human-usable password with punctuation has the stated shape. -/
theorem generate_password_spec_witness :
    generate_password 3 true true none (fun _ => 0) =
      .error ("password must have positive length") ∧
    (∃ pw, generate_password 12 true true none (fun i => i) = .ok pw ∧
      pw.length = (12 : Int).toNat ∧ (∀ c ∈ pw, c ≠ '\\') ∧
      (true = true → ∀ c ∈ pw, c ∉ ['O', 'o', '0', 'l', 'i', '1'])) :=
  ⟨(generate_password_spec 3 true true none (fun _ => 0)).1 (by decide),
   (generate_password_spec 12 true true none (fun i => i)).2 (by decide)⟩

/-- Helper: when find? locates the first element whose image under f is
present, findSome? returns exactly that image. -/
theorem findSome?_eq_of_find? (f : Nat → Option Nat) (l : List Nat) (a : Nat)
    (h : l.find? (fun x => (f x).isSome) = some a) : l.findSome? f = f a := by
  induction l with
  | nil => simp at h
  | cons x xs ih =>
    by_cases hx : (f x).isSome = true
    · rw [@List.find?_cons_of_pos _ (fun x => (f x).isSome) x xs hx] at h
      injection h with h
      subst h
      obtain ⟨b, hb⟩ := Option.isSome_iff_exists.mp hx
      rw [List.findSome?_cons, hb]
    · rw [@List.find?_cons_of_neg _ (fun x => (f x).isSome) x xs hx] at h
      have hfx : f x = none := Option.not_isSome_iff_eq_none.mp hx
      rw [List.findSome?_cons, hfx]
      exact ih h

/-- C2: get_log_model_for_model returns the exact-class registration for the
class itself when one exists; otherwise the (non-exact) registration of the
first class in the method resolution order that carries one; and None when
no class in the MRO is registered. -/
theorem get_log_model_for_model_spec (hooks : List Hook)
    (s : LogActionRegistry) (cls : PyClass) :
    (∀ v,
      (scan_for_actions hooks
          s).log_entry_models_by_type.values_by_exact_class cls.cid = some v →
      (get_log_model_for_model hooks s cls).2 = some v) ∧
    ((scan_for_actions hooks
          s).log_entry_models_by_type.values_by_exact_class cls.cid = none →
      ∀ a, cls.mro.find? (fun x =>
          ((scan_for_actions hooks
            s).log_entry_models_by_type.values_by_class x).isSome) = some a →
      (get_log_model_for_model hooks s cls).2 =
        (scan_for_actions hooks s).log_entry_models_by_type.values_by_class a) ∧
    ((scan_for_actions hooks
          s).log_entry_models_by_type.values_by_exact_class cls.cid = none →
      (∀ a ∈ cls.mro,
        (scan_for_actions hooks s).log_entry_models_by_type.values_by_class a =
          none) →
      (get_log_model_for_model hooks s cls).2 = none) := by
  refine ⟨?_, ?_, ?_⟩
  · intro v hv
    show (scan_for_actions hooks s).log_entry_models_by_type.get_by_type cls =
      some v
    unfold ObjectTypeRegistry.get_by_type
    rw [hv]
  · intro hnone a ha
    show (scan_for_actions hooks s).log_entry_models_by_type.get_by_type cls =
      _
    unfold ObjectTypeRegistry.get_by_type
    rw [hnone]
    exact findSome?_eq_of_find? _ _ _ ha
  · intro hnone hall
    show (scan_for_actions hooks s).log_entry_models_by_type.get_by_type cls =
      none
    unfold ObjectTypeRegistry.get_by_type
    rw [hnone]
    exact List.findSome?_eq_none_iff.mpr hall

/-- Witness for C2: with a hook registering log model 100 for class 10, a
class 5 whose MRO is [5, 10] resolves to the ancestor registration, and a
class 7 with MRO [7] resolves to None. -/
theorem get_log_model_for_model_spec_witness :
    (get_log_model_for_model [[HookCmd.registerModel 10 100]] initial_registry
        ⟨5, [5, 10]⟩).2 =
      (scan_for_actions [[HookCmd.registerModel 10 100]]
          initial_registry).log_entry_models_by_type.values_by_class 10 ∧
    (get_log_model_for_model [[HookCmd.registerModel 10 100]] initial_registry
        ⟨7, [7]⟩).2 = none :=
  ⟨(get_log_model_for_model_spec [[HookCmd.registerModel 10 100]]
      initial_registry ⟨5, [5, 10]⟩).2.1 rfl 10 rfl,
   (get_log_model_for_model_spec [[HookCmd.registerModel 10 100]]
      initial_registry ⟨7, [7]⟩).2.2 rfl (by decide)⟩

/-- C3: when log is called with user None (respectively uuid None), the
created log entry takes its user (respectively uuid) from the currently
active LogContext; with no activated context the defaults come from the
empty context, whose user and uuid are both None. -/
theorem registry_log_defaults (hooks : List Hook) (s : LogActionRegistry)
    (cls : PyClass) (action : String) (active : ActiveSlot) :
    (∀ uuid e, (registry_log hooks s cls action none uuid active).2 = some e →
      e.user = (get_active_log_context active).user) ∧
    (∀ user e, (registry_log hooks s cls action user none active).2 = some e →
      e.uuid = (get_active_log_context active).uuid) ∧
    get_active_log_context none = empty_log_context ∧
    empty_log_context.user = none ∧ empty_log_context.uuid = none := by
  refine ⟨?_, ?_, rfl, rfl, rfl⟩
  · intro uuid e h
    simp only [registry_log] at h
    split at h
    · exact absurd h (by simp)
    · injection h with h
      rw [← h]
      rfl
  · intro user e h
    simp only [registry_log] at h
    split at h
    · exact absurd h (by simp)
    · injection h with h
      rw [← h]
      rfl

/-- Witness for C3: with an active context carrying user 42 and uuid 99, a
log call with user None records user 42, and a log call with uuid None
records uuid 99. -/
theorem registry_log_defaults_witness :
    (LogEntry.mk 100 ("act") (some 42) (some 5)).user =
      (get_active_log_context (some ⟨1, some 42, some 99⟩)).user ∧
    (LogEntry.mk 100 ("act") (some 7) (some 99)).uuid =
      (get_active_log_context (some ⟨1, some 42, some 99⟩)).uuid :=
  ⟨(registry_log_defaults [[HookCmd.registerModel 10 100]] initial_registry
      ⟨10, [10]⟩ ("act") (some ⟨1, some 42, some 99⟩)).1 (some 5)
      ⟨100, ("act"), some 42, some 5⟩ rfl,
   (registry_log_defaults [[HookCmd.registerModel 10 100]] initial_registry
      ⟨10, [10]⟩ ("act") (some ⟨1, some 42, some 99⟩)).2.1 (some 7)
      ⟨100, ("act"), some 7, some 99⟩ rfl⟩

/-- C6 counterexample: calling register_action with label provided as the
empty string and message not provided is a call with exactly one of the two
arguments provided, yet instead of raising ValueError the code takes the
falsy branch and returns the decorator. -/
theorem register_action_claim_counterexample :
    register_action ("a") (some ("")) none initial_registry =
      .ok (.returnsDecorator initial_registry) := rfl

/-- C6 (amended): register_action raises ValueError when exactly one of
label and message is truthy (provided and non-empty); when both are truthy
it registers a formatter carrying them, appending (action, label) to
choices, and returns None; when neither is truthy it returns the
register_formatter_class decorator, which performs the same registration
for the decorated formatter class. -/
theorem register_action_spec (action : String) (label message : Option String)
    (s : LogActionRegistry) :
    (strTruthy label ≠ strTruthy message →
      register_action action label message s =
        .error ("Both label and message must be provided")) ∧
    (∀ l m, label = some l → message = some m → l ≠ ("") → m ≠ ("") →
      register_action action label message s =
        .ok (.returnsNone (register_formatter_class action ⟨l, m⟩ s)) ∧
      (register_formatter_class action ⟨l, m⟩ s).formatters action =
        some ⟨l, m⟩ ∧
      (register_formatter_class action ⟨l, m⟩ s).choices =
        s.choices ++ [(action, l)]) ∧
    (strTruthy label = false → strTruthy message = false →
      register_action action label message s = .ok (.returnsDecorator s) ∧
      ∀ fmt, (register_formatter_class action fmt s).formatters action =
          some fmt ∧
        (register_formatter_class action fmt s).choices =
          s.choices ++ [(action, fmt.label)]) := by
  refine ⟨?_, ?_, ?_⟩
  · intro hne
    cases hl : strTruthy label <;> cases hm : strTruthy message
    · rw [hl, hm] at hne; exact absurd rfl hne
    · simp [register_action, hl, hm]
    · simp [register_action, hl, hm]
    · rw [hl, hm] at hne; exact absurd rfl hne
  · rintro l m rfl rfl hl hm
    have hle : l.isEmpty = false := by
      rw [Bool.eq_false_iff]
      intro h2
      exact hl ((String.isEmpty_iff l).mp h2)
    have hme : m.isEmpty = false := by
      rw [Bool.eq_false_iff]
      intro h2
      exact hm ((String.isEmpty_iff m).mp h2)
    have htl : strTruthy (some l) = true := by simp [strTruthy, hle]
    have htm : strTruthy (some m) = true := by simp [strTruthy, hme]
    refine ⟨?_, ?_, rfl⟩
    · simp [register_action, htl, htm]
    · simp [register_formatter_class]
  · intro hl hm
    refine ⟨?_, ?_⟩
    · simp [register_action, hl, hm]
    · intro fmt
      exact ⟨by simp [register_formatter_class], rfl⟩

/-- Witness for C6: one truthy argument raises, two truthy arguments
register, no truthy argument returns the decorator. -/
theorem register_action_spec_witness :
    register_action ("a") (some ("A")) none initial_registry =
      .error ("Both label and message must be provided") ∧
    register_action ("a") (some ("A")) (some ("made")) initial_registry =
      .ok (.returnsNone (register_formatter_class ("a")
        ⟨("A"), ("made")⟩ initial_registry)) ∧
    register_action ("a") none none initial_registry =
      .ok (.returnsDecorator initial_registry) :=
  ⟨(register_action_spec ("a") (some ("A")) none initial_registry).1
      (by decide),
   ((register_action_spec ("a") (some ("A")) (some ("made"))
      initial_registry).2.1 ("A") ("made") rfl rfl (by decide) (by decide)).1,
   ((register_action_spec ("a") none none initial_registry).2.2 rfl rfl).1⟩

/-- Helper: dict assignment stores the assigned pair. -/
theorem mem_setKey_self (o : List (String × JVal)) (k : String) (v : JVal) :
    (k, v) ∈ setKey o k v := by
  unfold setKey
  by_cases h : o.any (fun p => p.1 == k) = true
  · rw [if_pos h]
    obtain ⟨p, hp, hpk⟩ := List.any_eq_true.mp h
    have hmap : (fun q : String × JVal => if q.1 == k then (k, v) else q) p =
        (k, v) := by simp [hpk]
    exact List.mem_map.mpr ⟨p, hp, hmap⟩
  · rw [if_neg h]
    exact List.mem_append_right _ (List.mem_singleton.mpr rfl)

/-- Helper: dict assignment keeps every pair under a different key. -/
theorem mem_setKey_of_ne (o : List (String × JVal)) (k : String) (v : JVal)
    (p : String × JVal) (hp : p ∈ o) (hne : p.1 ≠ k) : p ∈ setKey o k v := by
  have hpk : (p.1 == k) = false := beq_eq_false_iff_ne.mpr hne
  unfold setKey
  by_cases h : o.any (fun q => q.1 == k) = true
  · rw [if_pos h]
    have hmap : (fun q : String × JVal => if q.1 == k then (k, v) else q) p =
        p := by simp [hpk]
    exact List.mem_map.mpr ⟨p, hp, hmap⟩
  · rw [if_neg h]
    exact List.mem_append_left _ hp

/-- Helper: the middleware passes the response through untouched whenever
the response is not a 204 carrying pending messages. -/
theorem middleware_passthrough (htmx : Bool) (pending : List HtmxMessage)
    (r : HttpResponse) (h : r.status_code = 204 → pending = []) :
    htmx_message_middleware htmx pending r = r := by
  unfold htmx_message_middleware
  cases htmx
  · simp
  · by_cases h3 : 300 ≤ r.status_code ∧ r.status_code < 400
    · simp [h3]
    · by_cases hred : r.hx_redirect.isSome
      · simp [h3, hred]
      · by_cases h204 : r.status_code = 204
        · have hp : pending = [] := h h204
          simp [h3, hred, h204, hp]
        · simp [h3, hred, h204]

/-- Helper: the middleware either returns the response unchanged or only
rewrites its HX-Trigger header to an object. -/
theorem middleware_cases (htmx : Bool) (pending : List HtmxMessage)
    (r : HttpResponse) :
    htmx_message_middleware htmx pending r = r ∨
    ∃ o, htmx_message_middleware htmx pending r =
      { r with hx_trigger := some (.objForm o) } := by
  unfold htmx_message_middleware
  cases htmx
  · left; simp
  · by_cases h3 : 300 ≤ r.status_code ∧ r.status_code < 400
    · left; simp [h3]
    · by_cases hred : r.hx_redirect.isSome
      · left; simp [h3, hred]
      · by_cases h204 : r.status_code = 204
        · by_cases hpe : pending.isEmpty = true
          · left; simp [h3, hred, h204, hpe]
          · right
            rcases htr : r.hx_trigger with _ | tv
            · exact ⟨setKey [] ("messages") (.jmessages pending),
                by simp [h3, hred, h204, hpe, htr]⟩
            · rcases tv with s0 | o0
              · exact ⟨setKey [(s0, JVal.jbool true)] ("messages")
                    (.jmessages pending),
                  by simp [h3, hred, h204, hpe, htr]⟩
              · exact ⟨setKey o0 ("messages") (.jmessages pending),
                  by simp [h3, hred, h204, hpe, htr]⟩
        · left; simp [h3, hred, h204]

/-- C7: the middleware returns the response unchanged for non-HTMX requests,
3xx responses, responses carrying HX-Redirect, and whenever the status is
not 204 or no message is pending; it never touches status, HX-Redirect, the
remaining headers or the body; and when it does attach messages it puts them
under a messages key of the HX-Trigger object, preserving the trigger the
view already set. -/
theorem htmx_message_middleware_spec (htmx : Bool)
    (pending : List HtmxMessage) (r : HttpResponse) :
    (htmx = false → htmx_message_middleware htmx pending r = r) ∧
    (300 ≤ r.status_code → r.status_code < 400 →
      htmx_message_middleware htmx pending r = r) ∧
    (r.hx_redirect.isSome = true →
      htmx_message_middleware htmx pending r = r) ∧
    (r.status_code ≠ 204 ∨ pending = [] →
      htmx_message_middleware htmx pending r = r) ∧
    ((htmx_message_middleware htmx pending r).status_code = r.status_code ∧
     (htmx_message_middleware htmx pending r).hx_redirect = r.hx_redirect ∧
     (htmx_message_middleware htmx pending r).other_headers =
       r.other_headers ∧
     (htmx_message_middleware htmx pending r).body = r.body) ∧
    (htmx = true → ¬(300 ≤ r.status_code ∧ r.status_code < 400) →
      r.hx_redirect = none → r.status_code = 204 → pending ≠ [] →
      ((r.hx_trigger = none →
        (htmx_message_middleware htmx pending r).hx_trigger =
          some (.objForm [(("messages"), .jmessages pending)])) ∧
       (∀ s0, r.hx_trigger = some (.strForm s0) → s0 ≠ ("messages") →
        ∃ o, (htmx_message_middleware htmx pending r).hx_trigger =
            some (.objForm o) ∧
          (s0, JVal.jbool true) ∈ o ∧
          (("messages"), JVal.jmessages pending) ∈ o) ∧
       (∀ o0, r.hx_trigger = some (.objForm o0) →
        ∃ o, (htmx_message_middleware htmx pending r).hx_trigger =
            some (.objForm o) ∧
          (("messages"), JVal.jmessages pending) ∈ o ∧
          ∀ p ∈ o0, p.1 ≠ ("messages") → p ∈ o))) := by
  refine ⟨?_, ?_, ?_, ?_, ?_, ?_⟩
  · rintro rfl
    simp [htmx_message_middleware]
  · intro h1 h2
    cases htmx
    · simp [htmx_message_middleware]
    · simp [htmx_message_middleware, h1, h2]
  · intro hred
    cases htmx
    · simp [htmx_message_middleware]
    · by_cases h3 : 300 ≤ r.status_code ∧ r.status_code < 400
      · simp [htmx_message_middleware, h3]
      · simp [htmx_message_middleware, h3, hred]
  · intro h
    refine middleware_passthrough htmx pending r ?_
    intro h204
    rcases h with h | h
    · exact absurd h204 h
    · exact h
  · rcases middleware_cases htmx pending r with h | ⟨o, h⟩
    · rw [h]
      exact ⟨rfl, rfl, rfl, rfl⟩
    · rw [h]
      exact ⟨rfl, rfl, rfl, rfl⟩
  · rintro rfl h3 hred h204 hpne
    have hpe : pending.isEmpty = false := by
      rw [Bool.eq_false_iff]
      intro h2
      exact hpne (List.isEmpty_iff.mp h2)
    have hredf : r.hx_redirect.isSome = false := by rw [hred]; rfl
    refine ⟨?_, ?_, ?_⟩
    · intro htr
      simp [htmx_message_middleware, h3, hredf, h204, hpe, htr, setKey]
    · intro s0 htr hs0
      refine ⟨setKey [(s0, JVal.jbool true)] ("messages")
          (.jmessages pending), ?_, ?_, ?_⟩
      · simp [htmx_message_middleware, h3, hredf, h204, hpe, htr]
      · exact mem_setKey_of_ne _ _ _ (s0, JVal.jbool true)
          (List.mem_singleton.mpr rfl) hs0
      · exact mem_setKey_self _ _ _
    · intro o0 htr
      refine ⟨setKey o0 ("messages") (.jmessages pending), ?_, ?_, ?_⟩
      · simp [htmx_message_middleware, h3, hredf, h204, hpe, htr]
      · exact mem_setKey_self _ _ _
      · intro p hp hpne2
        exact mem_setKey_of_ne _ _ _ p hp hpne2

/-- Witness for C7: a non-HTMX request passes through, and a 204 HTMX
response with one pending message and no prior HX-Trigger gets the
messages object attached. -/
theorem htmx_message_middleware_spec_witness :
    htmx_message_middleware false [⟨("saved"), ("success"), none⟩]
      ⟨204, none, none, [(("X-Other"), ("y"))], ("body")⟩ =
      ⟨204, none, none, [(("X-Other"), ("y"))], ("body")⟩ ∧
    (htmx_message_middleware true [⟨("saved"), ("success"), none⟩]
        ⟨204, none, none, [(("X-Other"), ("y"))], ("body")⟩).hx_trigger =
      some (.objForm [(("messages"),
        .jmessages [⟨("saved"), ("success"), none⟩])]) :=
  ⟨(htmx_message_middleware_spec false [⟨("saved"), ("success"), none⟩]
      ⟨204, none, none, [(("X-Other"), ("y"))], ("body")⟩).1 rfl,
   ((htmx_message_middleware_spec true [⟨("saved"), ("success"), none⟩]
      ⟨204, none, none, [(("X-Other"), ("y"))], ("body")⟩).2.2.2.2.2 rfl
      (by decide) rfl rfl (by decide)).1 rfl⟩

/-- Helper: hook statements never touch the scan flag or the run counter. -/
theorem run_hook_preserves (s : LogActionRegistry) (cmd : HookCmd) :
    (run_hook s cmd).has_scanned_for_actions = s.has_scanned_for_actions ∧
    (run_hook s cmd).hook_runs = s.hook_runs := by
  cases cmd <;> exact ⟨rfl, rfl⟩

/-- Helper: a whole hook function never touches the scan flag or counter. -/
theorem foldl_hook_preserves (fn : Hook) : ∀ s : LogActionRegistry,
    (fn.foldl run_hook s).has_scanned_for_actions =
      s.has_scanned_for_actions ∧
    (fn.foldl run_hook s).hook_runs = s.hook_runs := by
  induction fn with
  | nil => intro s; exact ⟨rfl, rfl⟩
  | cons c cs ih =>
    intro s
    have h1 := run_hook_preserves s c
    have h2 := ih (run_hook s c)
    exact ⟨h2.1.trans h1.1, h2.2.trans h1.2⟩

/-- Helper: the full hook list never touches the scan flag or counter. -/
theorem foldl_hooks_preserves (hooks : List Hook) :
    ∀ s : LogActionRegistry,
    ((hooks.foldl (fun t fn => fn.foldl run_hook t) s).has_scanned_for_actions
      = s.has_scanned_for_actions) ∧
    (hooks.foldl (fun t fn => fn.foldl run_hook t) s).hook_runs =
      s.hook_runs := by
  induction hooks with
  | nil => intro s; exact ⟨rfl, rfl⟩
  | cons fn fns ih =>
    intro s
    have h1 := foldl_hook_preserves fn s
    have h2 := ih (fn.foldl run_hook s)
    exact ⟨h2.1.trans h1.1, h2.2.trans h1.2⟩

/-- Helper: scanning an already scanned registry is a no-op. -/
theorem scan_scanned (hooks : List Hook) (s : LogActionRegistry)
    (h : s.has_scanned_for_actions = true) : scan_for_actions hooks s = s := by
  simp [scan_for_actions, h]

/-- Helper: scanning an unscanned registry sets the flag and runs the hook
list exactly once. -/
theorem scan_props (hooks : List Hook) (s : LogActionRegistry)
    (h : s.has_scanned_for_actions = false) :
    (scan_for_actions hooks s).has_scanned_for_actions = true ∧
    (scan_for_actions hooks s).hook_runs = s.hook_runs + 1 := by
  unfold scan_for_actions
  rw [h]
  simp only [Bool.false_eq_true, if_false]
  refine ⟨by trivial, ?_⟩
  show (hooks.foldl (fun t fn => fn.foldl run_hook t) s).hook_runs + 1 =
    s.hook_runs + 1
  rw [(foldl_hooks_preserves hooks s).2]

/-- Helper: every lookup operation on a scanned registry leaves it as is. -/
theorem step_scanned (hooks : List Hook) (active : ActiveSlot)
    (s : LogActionRegistry) (op : RegistryOp)
    (h : s.has_scanned_for_actions = true) :
    RegistryOp.step hooks active s op = s := by
  cases op with
  | opGetActionLabel a => rfl
  | opLog c a u uu =>
    show scan_for_actions hooks (scan_for_actions hooks s) = s
    rw [scan_scanned hooks s h]
    exact scan_scanned hooks s h
  | opGetChoices => exact scan_scanned hooks s h
  | opGetFormatter a => exact scan_scanned hooks s h
  | opActionExists a => exact scan_scanned hooks s h
  | opContains a => exact scan_scanned hooks s h
  | opGetLogEntryModels => exact scan_scanned hooks s h
  | opGetLogModelForModel c => exact scan_scanned hooks s h

/-- Helper: a scanning lookup on an unscanned registry marks it scanned and
runs the hook list exactly once. -/
theorem step_triggers (hooks : List Hook) (active : ActiveSlot)
    (s : LogActionRegistry) (op : RegistryOp)
    (ht : RegistryOp.triggersScan op = true)
    (h : s.has_scanned_for_actions = false) :
    (RegistryOp.step hooks active s op).has_scanned_for_actions = true ∧
    (RegistryOp.step hooks active s op).hook_runs = s.hook_runs + 1 := by
  cases op with
  | opGetActionLabel a => simp [RegistryOp.triggersScan] at ht
  | opLog c a u uu =>
    have h1 := scan_props hooks s h
    constructor
    · show (scan_for_actions hooks
        (scan_for_actions hooks s)).has_scanned_for_actions = true
      rw [scan_scanned hooks _ h1.1]
      exact h1.1
    · show (scan_for_actions hooks (scan_for_actions hooks s)).hook_runs =
        s.hook_runs + 1
      rw [scan_scanned hooks _ h1.1]
      exact h1.2
  | opGetChoices => exact scan_props hooks s h
  | opGetFormatter a => exact scan_props hooks s h
  | opActionExists a => exact scan_props hooks s h
  | opContains a => exact scan_props hooks s h
  | opGetLogEntryModels => exact scan_props hooks s h
  | opGetLogModelForModel c => exact scan_props hooks s h

/-- Helper: get_action_label is the one lookup that leaves the registry
untouched even when it has not been scanned. -/
theorem step_no_scan (hooks : List Hook) (active : ActiveSlot)
    (s : LogActionRegistry) (op : RegistryOp)
    (hop : RegistryOp.triggersScan op = false) :
    RegistryOp.step hooks active s op = s := by
  cases op <;> first
    | rfl
    | simp [RegistryOp.triggersScan] at hop

/-- Helper: once scanned, no sequence of lookups changes the registry. -/
theorem run_ops_scanned (hooks : List Hook) (active : ActiveSlot)
    (ops : List RegistryOp) : ∀ s : LogActionRegistry,
    s.has_scanned_for_actions = true → run_ops hooks active s ops = s := by
  induction ops with
  | nil => intro s _; rfl
  | cons op rest ih =>
    intro s h
    show run_ops hooks active (RegistryOp.step hooks active s op) rest = s
    rw [step_scanned hooks active s op h]
    exact ih s h

/-- Helper: starting unscanned, the hook list is executed once when the
sequence contains a scanning lookup, and never otherwise. -/
theorem run_ops_hook_runs (hooks : List Hook) (active : ActiveSlot)
    (ops : List RegistryOp) : ∀ s : LogActionRegistry,
    s.has_scanned_for_actions = false →
    (run_ops hooks active s ops).hook_runs =
      s.hook_runs + (if ops.any RegistryOp.triggersScan then 1 else 0) := by
  induction ops with
  | nil => intro s _; simp [run_ops]
  | cons op rest ih =>
    intro s h
    by_cases hop : RegistryOp.triggersScan op = true
    · have h1 := step_triggers hooks active s op hop h
      have h2 := run_ops_scanned hooks active rest
        (RegistryOp.step hooks active s op) h1.1
      show (run_ops hooks active
        (RegistryOp.step hooks active s op) rest).hook_runs = _
      rw [h2, h1.2]
      simp [List.any_cons, hop]
    · have hopf : RegistryOp.triggersScan op = false := by
        revert hop; cases RegistryOp.triggersScan op <;> simp
      show (run_ops hooks active
        (RegistryOp.step hooks active s op) rest).hook_runs = _
      rw [step_no_scan hooks active s op hopf, ih s h]
      simp [List.any_cons, hopf]

/-- C1 counterexample: a sequence consisting of one get_action_label lookup
on a fresh registry, with a nonempty register_log_actions hook list, leaves
the hook functions executed zero times rather than exactly once. -/
theorem scan_claim_counterexample :
    ¬((run_ops [[HookCmd.registerAction ("create") ("Create") ("Created")]]
        none initial_registry
        [RegistryOp.opGetActionLabel ("create")]).hook_runs = 1) := by decide

/-- C1 (amended): over any sequence of public lookups on a fresh registry,
the register_log_actions hooks are executed exactly once — at the first
lookup other than get_action_label — and never again; a sequence of only
get_action_label calls never executes them. -/
theorem scan_for_actions_runs_once (hooks : List Hook) (active : ActiveSlot)
    (ops : List RegistryOp) :
    (run_ops hooks active initial_registry ops).hook_runs =
      if ops.any RegistryOp.triggersScan then 1 else 0 := by
  have h := run_ops_hook_runs hooks active ops initial_registry rfl
  simpa [initial_registry] using h

end Conjunto
